import Mathlib

/-!
Verification of `src/attack_to_log_source.py` (signal_trace).

The script loads a JSON array of MITRE ATT&CK technique objects, reshapes
each object into a flat "Detection Mapping Row", dumps the reshaped rows to
`output/attack_tables.json`, turns list-valued fields into comma-joined
strings, formats the filter dictionaries, generates a "Copy KQL" button per
row, HTML-escapes every non-Query cell, and writes one static HTML table.

Python strings are embedded as `List Char`; Python values occurring in the
JSON data are embedded as `PyVal`.  JSON floats are not modelled: no claim
under verification depends on float-valued fields, and the script itself
does no arithmetic.
-/

/-- A Python value as produced by `json.load`: strings, integers, booleans,
`None`, lists and (string-keyed) dictionaries.  Dictionaries are association
lists in key-insertion order, matching Python 3 dict semantics. -/
inductive PyVal where
  | str : List Char → PyVal
  | int : Int → PyVal
  | bool : Bool → PyVal
  | none : PyVal
  | list : List PyVal → PyVal
  | dict : List (List Char × PyVal) → PyVal
/-- Python truthiness (`bool(x)`): empty string, `0`, `False`, `None`,
empty list and empty dict are falsy, everything else is truthy. -/
def pyTruthy : PyVal → Bool
  | .str s => !s.isEmpty
  | .int n => n != 0
  | .bool b => b
  | .none => false
  | .list l => !l.isEmpty
  | .dict d => !d.isEmpty

/-- `sep.join(xs)` for Python strings: concatenate the pieces with `sep`
between consecutive pieces. -/
def joinWith (sep : List Char) : List (List Char) → List Char
  | [] => []
  | [s] => s
  | s :: rest => s ++ sep ++ joinWith sep rest

mutual

/-- Model of Python `repr` on JSON-loaded values.  Strings are wrapped in
single quotes (the escaping `repr` performs inside string literals is not
modelled; no claim inspects nested reprs), ints print in decimal, booleans
as `True`/`False`, `None` as `None`, lists as `[a, b]`, dicts as
`\x7b'k': v\x7d`. -/
def pyRepr : PyVal → List Char
  | .str s => '\'' :: s ++ ['\'']
  | .int n => (toString n).toList
  | .bool b => if b then "True".toList else "False".toList
  | .none => "None".toList
  | .list l => '[' :: pyReprList l ++ [']']
  | .dict d => '\x7b' :: pyReprDict d ++ ['\x7d']

/-- Comma-joined reprs of the elements of a Python list. -/
def pyReprList : List PyVal → List Char
  | [] => []
  | [v] => pyRepr v
  | v :: vs => pyRepr v ++ ", ".toList ++ pyReprList vs

/-- Comma-joined `'key': value` reprs of the items of a Python dict. -/
def pyReprDict : List (List Char × PyVal) → List Char
  | [] => []
  | [kv] => ('\'' :: kv.1 ++ ['\'']) ++ ": ".toList ++ pyRepr kv.2
  | kv :: rest => ('\'' :: kv.1 ++ ['\'']) ++ ": ".toList ++ pyRepr kv.2
      ++ ", ".toList ++ pyReprDict rest

end

/-- Model of Python `str(x)`: the identity on strings, `repr` on every
other JSON-loaded value (ints, booleans, `None`, lists, dicts all have
`str` equal to `repr`). -/
def pyStr : PyVal → List Char
  | .str s => s
  | v => pyRepr v

/-- One escaped character of `html.escape(s, quote=True)`: `&`, `<`, `>`,
`"` and `'` become their HTML entities, every other character is kept.
The sequential `str.replace` calls of CPython's `html.escape` (ampersand
first) are equivalent to this character-wise map. -/
def escapeChar (c : Char) : List Char :=
  if c = '&' then "&amp;".toList
  else if c = '<' then "&lt;".toList
  else if c = '>' then "&gt;".toList
  else if c = '"' then "&quot;".toList
  else if c = '\'' then "&#x27;".toList
  else [c]

/-- Model of `html.escape(s, quote=True)` (the default used by the
script's `html_lib.escape`). -/
def htmlEscape : List Char → List Char
  | [] => []
  | c :: cs => escapeChar c ++ htmlEscape cs

/-- Model of `s.replace("'", "\\'")` from `create_copy_button`: every
single quote gets a backslash put in front of it. -/
def replaceQuotes : List Char → List Char
  | [] => []
  | c :: cs => if c = '\'' then '\\' :: '\'' :: replaceQuotes cs
               else c :: replaceQuotes cs

/-- Model of Python `str.lower` (ASCII case folding; the inputs are the
ASCII strings built by `format_filter_data`). -/
def pyLower (s : List Char) : List Char := s.map Char.toLower

/-- The characters Python `str.strip()` removes by default: everything
`str.isspace()` accepts — the ASCII whitespace characters, the separator
controls `\x1c`-`\x1f`, NEL, NBSP, and the Unicode space, line and
paragraph separators. -/
def pyIsSpace (c : Char) : Bool :=
  c = ' ' ∨ c = '\t' ∨ c = '\n' ∨ c = '\r' ∨ c = '\x0b' ∨ c = '\x0c'
    ∨ ('\x1c' ≤ c ∧ c ≤ '\x1f') ∨ c = '\x85' ∨ c = '\xa0'
    ∨ c = '\u1680' ∨ ('\u2000' ≤ c ∧ c ≤ '\u200A')
    ∨ c = '\u2028' ∨ c = '\u2029' ∨ c = '\u202F' ∨ c = '\u205F' ∨ c = '\u3000'

/-- Model of Python `s.strip()`: drop whitespace from both ends. -/
def pyStrip (s : List Char) : List Char :=
  ((s.dropWhile pyIsSpace).reverse.dropWhile pyIsSpace).reverse

/-- Model of `format_filter_data`: falsy cells render as the empty string;
a list renders its entries joined by `"; "`, where a dict entry becomes its
`key: value` pairs joined by `", "` and any other entry becomes `str(entry)`;
a truthy non-list cell becomes `str(cell)`. -/
def format_filter_data (cell_data : PyVal) : List Char :=
  if pyTruthy cell_data = false then []
  else match cell_data with
    | .list entries =>
        joinWith "; ".toList (entries.map fun entry =>
          match entry with
          | .dict kvs =>
              joinWith ", ".toList (kvs.map fun kv => kv.1 ++ ": ".toList ++ pyStr kv.2)
          | _ => pyStr entry)
    | v => pyStr v

/-- The disabled grey button emitted by `create_copy_button` when the row
has no usable filter (the two adjacent Python string literals of the
source concatenated). -/
def noFilterButton : List Char :=
  "<button class=\"copy-btn disabled-btn\" disabled><i class=\"fa-solid fa-ban\"></i> No Filter</button>".toList

/-- Text of the active button before the escaped table/event name. -/
def activePre : List Char :=
  "<button class=\"copy-btn active-btn\" onclick=\"generateKQL(this, '".toList

/-- Text of the active button between the two escaped arguments. -/
def activeMid : List Char := "', '".toList

/-- Text of the active button after the escaped filter string. -/
def activeSuf : List Char :=
  "')\"><i class=\"fa-solid fa-terminal\"></i> Copy KQL</button>".toList

/-- Model of `create_copy_button`, applied to the two row fields it reads:
`row['table_or_event_id']` (still a raw JSON value, passed through `str`)
and `row['table_filter']` (already formatted to a string).  An empty,
`'nan'` (case-insensitive) or whitespace-only filter yields the disabled
button; otherwise both arguments get their single quotes backslash-escaped
and are spliced into the `onclick` f-string. -/
def create_copy_button (table_or_event_id : PyVal) (raw_filter : List Char) : List Char :=
  if raw_filter = [] ∨ pyLower raw_filter = "nan".toList ∨ pyStrip raw_filter = [] then
    noFilterButton
  else
    activePre ++ replaceQuotes (pyStr table_or_event_id) ++ activeMid
      ++ replaceQuotes raw_filter ++ activeSuf

/-- Sequential fallible map: used both for Python's `str.join` over a list
(which raises on the first non-string element) and for the main loop, which
appends one entry per technique and aborts on the first exception. -/
def mapOpt (f : α → Option β) : List α → Option (List β)
  | [] => some []
  | a :: as => do
      let b ← f a
      let bs ← mapOpt f as
      pure (b :: bs)

/-- The string content of a Python value, when it is a string. -/
def asString : PyVal → Option (List Char)
  | PyVal.str s => some s
  | _ => Option.none

/-- The cell transformation applied to `df["tactic"]` and `df["platform"]`:
`", ".join(x) if isinstance(x, list) else x`.  Python's `str.join` raises
`TypeError` when some list element is not a string, modelled as `none`. -/
def joinIfList : PyVal → Option PyVal
  | .list l =>
      (mapOpt asString l).map fun ss => PyVal.str (joinWith ", ".toList ss)
  | v => some v

/-- Opening text of the tooltip span, up to the title attribute value. -/
def spanOpen : List Char := "<span title=\"".toList

/-- Text of the tooltip span between the title value and the content. -/
def spanMid : List Char := "\">".toList

/-- Closing text of the tooltip span. -/
def spanClose : List Char := "</span>".toList

/-- Model of `add_tooltip`: falsy cells render as the empty string; a
truthy cell is `html.escape`d once and the escaped text is used both as
the `title` attribute and as the span content. -/
def add_tooltip (x : PyVal) : List Char :=
  if pyTruthy x = false then []
  else
    let safe_text := htmlEscape (pyStr x)
    spanOpen ++ safe_text ++ spanMid ++ safe_text ++ spanClose

/-- A span cell with an explicit title attribute and content, used to state
that `add_tooltip` puts the same escaped text in both positions. -/
def mkSpan (title content : List Char) : List Char :=
  spanOpen ++ title ++ spanMid ++ content ++ spanClose

/-- One reshaped "Detection Mapping Row", the dict built for each technique
in the main loop (`parsed_techniques`). -/
structure Row where
  tactic : PyVal
  technique_id : PyVal
  technique_name : PyVal
  event_description : PyVal
  platform : PyVal
  table_or_event_id : PyVal
  log_source : PyVal
  table_filter : PyVal

/-- Python dict lookup `d[k]`, `Option.none` standing for `KeyError`. -/
def dictGet (d : List (List Char × PyVal)) (k : List Char) : Option PyVal :=
  (d.find? fun kv => kv.1 == k).map fun kv => kv.2

/-- One iteration of the main loop: build the clean dictionary from a
technique object.  A missing key raises `KeyError`; indexing a non-dict
technique with a string key raises a `TypeError`; both are `none`. -/
def parseTechnique : PyVal → Option Row
  | .dict d => do
      let tac ← dictGet d "tactic".toList
      let tid ← dictGet d "technique_id".toList
      let tname ← dictGet d "technique".toList
      let ename ← dictGet d "name".toList
      let plat ← dictGet d "platform".toList
      let eid ← dictGet d "event_id".toList
      let lsrc ← dictGet d "log_source".toList
      let filt ← dictGet d "filter_in".toList
      pure { tactic := tac, technique_id := tid, technique_name := tname,
             event_description := ename, platform := plat,
             table_or_event_id := eid, log_source := lsrc, table_filter := filt }
  | _ => Option.none

/-- `parsed_output` of the script: one `Row` per technique object of the
input array, in order. -/
def parsed_output (techniques_model : List PyVal) : Option (List Row) :=
  mapOpt parseTechnique techniques_model

/-- One fully rendered table row: the nine DataFrame columns in order,
each holding the final HTML cell text. -/
structure DisplayRow where
  tactic : List Char
  technique_id : List Char
  technique_name : List Char
  event_description : List Char
  platform : List Char
  table_or_event_id : List Char
  log_source : List Char
  table_filter : List Char
  query : List Char

/-- The per-row effect of the DataFrame steps, in source order: join the
tactic and platform lists, format the filter column, build the Query
button from the table/event id and the formatted filter, then wrap every
non-Query cell with `add_tooltip`.  The only per-row failure is
`", ".join` on a list with a non-string element (`TypeError`); the
wholesale failure of the column accesses on a row-less, column-less
DataFrame is modelled at the stage level in `dfSteps`. -/
def renderRow (r : Row) : Option DisplayRow := do
  let tac ← joinIfList r.tactic
  let plat ← joinIfList r.platform
  let filt := format_filter_data r.table_filter
  let query := create_copy_button r.table_or_event_id filt
  pure { tactic := add_tooltip tac,
         technique_id := add_tooltip r.technique_id,
         technique_name := add_tooltip r.technique_name,
         event_description := add_tooltip r.event_description,
         platform := add_tooltip plat,
         table_or_event_id := add_tooltip r.table_or_event_id,
         log_source := add_tooltip r.log_source,
         table_filter := add_tooltip (PyVal.str filt),
         query := query }

/-- The Query cell generated for a row: `create_copy_button` applied after
`format_filter_data`, exactly as in the DataFrame pipeline. -/
def queryCell (r : Row) : List Char :=
  create_copy_button r.table_or_event_id (format_filter_data r.table_filter)

/-- One `<tr>` of the rendered table body.  `df.to_html` is called with
`escape=False`, so every cell text is inserted verbatim. -/
def tableRowHtml (d : DisplayRow) : List Char :=
  "<tr><td>".toList ++ d.tactic
    ++ "</td><td>".toList ++ d.technique_id
    ++ "</td><td>".toList ++ d.technique_name
    ++ "</td><td>".toList ++ d.event_description
    ++ "</td><td>".toList ++ d.platform
    ++ "</td><td>".toList ++ d.table_or_event_id
    ++ "</td><td>".toList ++ d.log_source
    ++ "</td><td>".toList ++ d.table_filter
    ++ "</td><td>".toList ++ d.query
    ++ "</td></tr>".toList

/-- The body rows of the generated HTML table, one per DataFrame row. -/
def tableRows (ds : List DisplayRow) : List (List Char) :=
  ds.map tableRowHtml

/-- The header row of the generated table: the DataFrame column names in
first-seen key order, with the appended `Query` column last. -/
def tableHeader : List Char :=
  ("<thead><tr><th>tactic</th><th>technique_id</th><th>technique_name</th>"
    ++ "<th>event_description</th><th>platform</th><th>table_or_event_id</th>"
    ++ "<th>log_source</th><th>table_filter</th><th>Query</th></tr></thead>").toList

/-- The generated `df.to_html` table.  The exact attribute soup of the
`<table>` tag is immaterial to every claim; the header and the body rows
carry all data. -/
def tableHtml (ds : List DisplayRow) : List Char :=
  "<table id=\"jsonTable\">".toList ++ tableHeader
    ++ "<tbody>".toList ++ joinWith [] (tableRows ds)
    ++ "</tbody></table>".toList

mutual

/-- Model of the JSON text `json.dump` produces for a value (the
`indent=2` whitespace layout is not modelled; no claim inspects the
whitespace of the intermediate file). -/
def jsonOfPyVal : PyVal → List Char
  | .str s => '"' :: s ++ ['"']
  | .int n => (toString n).toList
  | .bool b => if b then "true".toList else "false".toList
  | .none => "null".toList
  | .list l => '[' :: jsonOfPyValList l ++ [']']
  | .dict d => '\x7b' :: jsonOfPyValDict d ++ ['\x7d']

/-- Comma-joined JSON texts of the elements of an array. -/
def jsonOfPyValList : List PyVal → List Char
  | [] => []
  | [v] => jsonOfPyVal v
  | v :: vs => jsonOfPyVal v ++ ", ".toList ++ jsonOfPyValList vs

/-- Comma-joined `"key": value` JSON texts of the members of an object. -/
def jsonOfPyValDict : List (List Char × PyVal) → List Char
  | [] => []
  | [kv] => ('"' :: kv.1 ++ ['"']) ++ ": ".toList ++ jsonOfPyVal kv.2
  | kv :: rest => ('"' :: kv.1 ++ ['"']) ++ ": ".toList ++ jsonOfPyVal kv.2
      ++ ", ".toList ++ jsonOfPyValDict rest

end

/-- A `Row` as the dictionary the loop builds, with the renamed keys in
insertion order; this is what `json.dump` serialises. -/
def rowToPyVal (r : Row) : PyVal :=
  PyVal.dict
    [("tactic".toList, r.tactic),
     ("technique_id".toList, r.technique_id),
     ("technique_name".toList, r.technique_name),
     ("event_description".toList, r.event_description),
     ("platform".toList, r.platform),
     ("table_or_event_id".toList, r.table_or_event_id),
     ("log_source".toList, r.log_source),
     ("table_filter".toList, r.table_filter)]

/-- Content of the intermediate `output/attack_tables.json` file. -/
def jsonDump (rows : List Row) : List Char :=
  jsonOfPyVal (PyVal.list (rows.map rowToPyVal))

/-- Content of the written `table.html`, up to the static page template:
the template text around the table is a fixed constant independent of the
data, so the table is the whole data-dependent content of the file. -/
def pageHtml (ds : List DisplayRow) : List Char :=
  tableHtml ds

/-- The unhandled Python exceptions the script can die with. -/
inductive PyError where
  | fileNotFoundError
  | jsonDecodeError
  | keyError
  | typeError
deriving DecidableEq

/-- Outcome of one run: the files written (path, content) in write order,
and the unhandled exception that terminated the run, if any. -/
structure ProgResult where
  written : List (List Char × List Char)
  error : Option PyError

/-- Path of the intermediate JSON file. -/
def output_json : List Char := "output/attack_tables.json".toList

/-- Path of the final HTML report. -/
def tableHtmlPath : List Char := "table.html".toList

/-- Python iteration over the loaded JSON document, as `for technique in
techniques_model` sees it: a list yields its elements, a dict its keys, a
string its characters; every other value raises `TypeError`. -/
def pyIter : PyVal → Option (List PyVal)
  | PyVal.list l => some l
  | PyVal.dict d => some (d.map fun kv => PyVal.str kv.1)
  | PyVal.str s => some (s.map fun c => PyVal.str [c])
  | _ => Option.none

/-- The whole DataFrame stage.  `pd.read_json` of the freshly dumped
`parsed_output` recovers the rows, but the dumped empty array yields a
DataFrame with no rows and hence no columns at all, so the very first
column access `df["tactic"]` raises `KeyError` before anything is
rendered; on a nonempty frame the per-row transformation runs, failing
only on `", ".join` of a non-string element (`TypeError`). -/
def dfSteps (rows : List Row) : Except PyError (List DisplayRow) :=
  if rows.isEmpty then Except.error PyError.keyError
  else
    match mapOpt renderRow rows with
    | Option.none => Except.error PyError.typeError
    | Option.some ds => Except.ok ds

/-- Model of one full run of the script.  `jsonParse` abstracts CPython's
`json.load` grammar (`Option.none` standing for `JSONDecodeError`);
`inputFile` is the content of `source/techniques_to_events_mapping.json`
(`Option.none` when the file is missing); `platformArg` is the value of the
optional `-p`/`--Platform` argument, which the script parses and never
reads again.  Execution order follows the source: open/parse the input,
iterate the document through the reshaping loop, dump the intermediate
JSON, run the DataFrame stage, write the HTML.  One error kind is
conflated: a loop iteration failing because the technique is not a dict
(a `TypeError` in the program, e.g. when the document is a nonempty dict
or string) is reported as `keyError` like a missing key; no claim
distinguishes the two. -/
def runProgram (jsonParse : List Char → Option PyVal)
    (inputFile : Option (List Char)) (platformArg : Option (List Char)) : ProgResult :=
  match inputFile with
  | Option.none => { written := [], error := some PyError.fileNotFoundError }
  | Option.some contents =>
    match jsonParse contents with
    | Option.none => { written := [], error := some PyError.jsonDecodeError }
    | Option.some doc =>
      match pyIter doc with
      | Option.none => { written := [], error := some PyError.typeError }
      | Option.some techniques_model =>
        match parsed_output techniques_model with
        | Option.none => { written := [], error := some PyError.keyError }
        | Option.some rows =>
          match dfSteps rows with
          | Except.error e =>
              { written := [(output_json, jsonDump rows)],
                error := some e }
          | Except.ok ds =>
              { written := [(output_json, jsonDump rows),
                            (tableHtmlPath, pageHtml ds)],
                error := Option.none }

/-- Split a string at every occurrence of the two-character separator
`", "`, scanning left to right — the inverse direction of the join
performed on the tactic and platform columns. -/
def splitSep : List Char → List (List Char)
  | [] => [[]]
  | [c] => [[c]]
  | c1 :: c2 :: cs =>
      if c1 = ',' ∧ c2 = ' ' then [] :: splitSep cs
      else
        match splitSep (c2 :: cs) with
        | [] => [[c1]]
        | r :: rs => (c1 :: r) :: rs

/-- Checks that what follows an ampersand completes one of the five
entities `html.escape` emits. -/
def beginsEntityTail (l : List Char) : Bool :=
  "amp;".toList.isPrefixOf l || "lt;".toList.isPrefixOf l
    || "gt;".toList.isPrefixOf l || "quot;".toList.isPrefixOf l
    || "#x27;".toList.isPrefixOf l

/-- Checks that every ampersand in a piece of HTML text begins one of the
five entities `html.escape` emits, i.e. that no ampersand of the original
text survives unescaped. -/
def entityClean : List Char → Bool
  | [] => true
  | c :: cs => ((c != '&') || beginsEntityTail cs) && entityClean cs

/-- Scan for a single quote not immediately preceded by a backslash,
tracking the previous character. -/
def noBareQuoteAux (prev : Char) : List Char → Bool
  | [] => true
  | c :: cs => ((c != '\'') || (prev == '\\')) && noBareQuoteAux c cs

/-- Holds when every single quote in the string is immediately preceded by
a backslash — the sense in which the generated JavaScript string literals
contain no unescaped single quotes. -/
def noBareQuote (s : List Char) : Bool := noBareQuoteAux 'a' s

example : splitSep "a, b".toList = ["a".toList, "b".toList] := by decide
example : splitSep "a,b".toList = ["a,b".toList] := by decide
example : entityClean "x&amp;y".toList = true := by decide
example : entityClean "x&y".toList = false := by decide
example : noBareQuote "a\\'b".toList = true := by decide
example : noBareQuote "a'b".toList = false := by decide
example : pyStrip "  a b  ".toList = "a b".toList := by decide
example : pyStrip ['\xa0'] = [] := by decide
example : create_copy_button (PyVal.str []) ['\xa0'] = noFilterButton := by decide

theorem mapOpt_length {f : α → Option β} :
    ∀ {l : List α} {bs : List β}, mapOpt f l = some bs → bs.length = l.length := by
  intro l
  induction l with
  | nil => intro bs h; simp [mapOpt] at h; simp [← h]
  | cons a as ih =>
      intro bs h
      simp only [mapOpt, Option.bind_eq_bind, Option.bind_eq_some] at h
      obtain ⟨b, _, bs', hbs', hcons⟩ := h
      simp only [Option.pure_def, Option.some.injEq] at hcons
      subst hcons
      simp [ih hbs']

theorem escapeChar_no_raw (c : Char) :
    '<' ∉ escapeChar c ∧ '>' ∉ escapeChar c ∧ '"' ∉ escapeChar c := by
  unfold escapeChar
  split_ifs with h1 h2 h3 h4 h5
  · exact ⟨by decide, by decide, by decide⟩
  · exact ⟨by decide, by decide, by decide⟩
  · exact ⟨by decide, by decide, by decide⟩
  · exact ⟨by decide, by decide, by decide⟩
  · exact ⟨by decide, by decide, by decide⟩
  · refine ⟨?_, ?_, ?_⟩ <;> simp only [List.mem_singleton] <;> intro h
    · exact h2 h.symm
    · exact h3 h.symm
    · exact h4 h.symm

theorem htmlEscape_no_raw (s : List Char) :
    '<' ∉ htmlEscape s ∧ '>' ∉ htmlEscape s ∧ '"' ∉ htmlEscape s := by
  induction s with
  | nil => simp [htmlEscape]
  | cons c cs ih =>
      have hc := escapeChar_no_raw c
      simp only [htmlEscape, List.mem_append]
      refine ⟨?_, ?_, ?_⟩ <;> rintro (h | h)
      · exact hc.1 h
      · exact ih.1 h
      · exact hc.2.1 h
      · exact ih.2.1 h
      · exact hc.2.2 h
      · exact ih.2.2 h

theorem entityClean_escapeChar_append (c : Char) (t : List Char) :
    entityClean (escapeChar c ++ t) = entityClean t := by
  unfold escapeChar
  split_ifs with h1 h2 h3 h4 h5
  · show entityClean ('&' :: 'a' :: 'm' :: 'p' :: ';' :: t) = entityClean t
    simp [entityClean, beginsEntityTail, List.isPrefixOf]
  · show entityClean ('&' :: 'l' :: 't' :: ';' :: t) = entityClean t
    simp [entityClean, beginsEntityTail, List.isPrefixOf]
  · show entityClean ('&' :: 'g' :: 't' :: ';' :: t) = entityClean t
    simp [entityClean, beginsEntityTail, List.isPrefixOf]
  · show entityClean ('&' :: 'q' :: 'u' :: 'o' :: 't' :: ';' :: t) = entityClean t
    simp [entityClean, beginsEntityTail, List.isPrefixOf]
  · show entityClean ('&' :: '#' :: 'x' :: '2' :: '7' :: ';' :: t) = entityClean t
    simp [entityClean, beginsEntityTail, List.isPrefixOf]
  · have hb : (c != '&') = true := by simp [h1]
    show entityClean (c :: t) = entityClean t
    simp [entityClean, hb]

theorem entityClean_htmlEscape (s : List Char) : entityClean (htmlEscape s) = true := by
  induction s with
  | nil => rfl
  | cons c cs ih => rw [htmlEscape, entityClean_escapeChar_append]; exact ih

theorem noBareQuoteAux_replaceQuotes (prev : Char) (s : List Char) :
    noBareQuoteAux prev (replaceQuotes s) = true := by
  induction s generalizing prev with
  | nil => rfl
  | cons c cs ih =>
      by_cases hc : c = '\''
      · subst hc
        simp only [replaceQuotes, if_pos rfl, noBareQuoteAux]
        simpa using ih '\''
      · simp only [replaceQuotes, if_neg hc, noBareQuoteAux, Bool.and_eq_true,
          Bool.or_eq_true, bne_iff_ne, ne_eq, beq_iff_eq]
        exact ⟨Or.inl hc, ih c⟩

theorem noBareQuote_replaceQuotes (s : List Char) :
    noBareQuote (replaceQuotes s) = true :=
  noBareQuoteAux_replaceQuotes 'a' s

theorem splitSep_ne_nil (s : List Char) : splitSep s ≠ [] := by
  match s with
  | [] => simp [splitSep]
  | [c] => simp [splitSep]
  | c1 :: c2 :: cs =>
      rw [splitSep]
      split_ifs
      · simp
      · cases h : splitSep (c2 :: cs) <;> simp

theorem splitSep_no_comma :
    ∀ {s : List Char}, ',' ∉ s → splitSep s = [s] := by
  intro s
  induction s with
  | nil => intro _; rfl
  | cons c tail ih =>
      intro h
      have hc : c ≠ ',' := fun hc => h (hc ▸ List.mem_cons_self c tail)
      have htail : ',' ∉ tail := fun ht => h (List.mem_cons_of_mem c ht)
      match tail with
      | [] => rfl
      | c2 :: cs =>
          rw [splitSep, if_neg (by exact fun hand => hc hand.1), ih htail]

theorem splitSep_append_sep :
    ∀ {a : List Char} (t : List Char), ',' ∉ a →
      splitSep (a ++ ',' :: ' ' :: t) = a :: splitSep t := by
  intro a
  induction a with
  | nil =>
      intro t _
      rw [List.nil_append, splitSep, if_pos ⟨rfl, rfl⟩]
  | cons c a' ih =>
      intro t h
      have hc : c ≠ ',' := fun hc => h (hc ▸ List.mem_cons_self c a')
      have ha' : ',' ∉ a' := fun ht => h (List.mem_cons_of_mem c ht)
      specialize ih t ha'
      cases a' with
      | nil =>
          show splitSep (c :: ',' :: ' ' :: t) = [c] :: splitSep t
          rw [splitSep, if_neg (fun hand => hc hand.1)]
          rw [show splitSep (',' :: ' ' :: t) = [] :: splitSep t from by
            rw [splitSep, if_pos ⟨rfl, rfl⟩]]
      | cons c2 cs =>
          simp only [List.cons_append] at ih ⊢
          rw [splitSep, if_neg (fun hand => hc hand.1)]
          rw [ih]

theorem splitSep_joinWith :
    ∀ {l : List (List Char)}, l ≠ [] → (∀ s ∈ l, ',' ∉ s) →
      splitSep (joinWith [',', ' '] l) = l := by
  intro l
  induction l with
  | nil => intro h; exact absurd rfl h
  | cons a rest ih =>
      intro _ hall
      have ha : ',' ∉ a := hall a (List.mem_cons_self a rest)
      match rest with
      | [] => exact splitSep_no_comma ha
      | b :: rest' =>
          have hrest : (b :: rest') ≠ [] := by simp
          have hall' : ∀ s ∈ b :: rest', ',' ∉ s :=
            fun s hs => hall s (List.mem_cons_of_mem a hs)
          show splitSep (a ++ [',', ' '] ++ joinWith [',', ' '] (b :: rest')) = _
          rw [List.append_assoc]
          have : ([',', ' '] : List Char) ++ joinWith [',', ' '] (b :: rest')
              = ',' :: ' ' :: joinWith [',', ' '] (b :: rest') := rfl
          rw [this, splitSep_append_sep _ ha, ih hrest hall']

theorem mapOpt_asString_map_str (l : List (List Char)) :
    mapOpt asString (l.map PyVal.str) = some l := by
  induction l with
  | nil => rfl
  | cons s rest ih => simp [mapOpt, asString, ih]

theorem pyStr_str (s : List Char) : pyStr (PyVal.str s) = s := rfl

theorem noFilter_ne_active (n f : List Char) :
    noFilterButton ≠ activePre ++ n ++ activeMid ++ f ++ activeSuf := by
  intro h
  rw [List.append_assoc, List.append_assoc, List.append_assoc] at h
  have h24 : noFilterButton[24]? = (activePre ++ (n ++ (activeMid ++ (f ++ activeSuf))))[24]? :=
    congrArg (fun l => l[24]?) h
  rw [List.getElem?_append_left (by decide : (24 : Nat) < activePre.length)] at h24
  exact absurd h24 (by decide)
example : replaceQuotes "a'b".toList = "a\\'b".toList := by decide
example : htmlEscape "<&>".toList = "&lt;&amp;&gt;".toList := by decide
example : joinWith ", ".toList ["a".toList, "b".toList] = "a, b".toList := by decide
example : pyStr (.list [.str "x".toList, .int 2]) = "['x', 2]".toList := by decide

/-- A one-technique input used to instantiate the row-count theorem. -/
def tsC1 : List PyVal :=
  [PyVal.dict
    [("tactic".toList, PyVal.list [PyVal.str "persistence".toList]),
     ("technique_id".toList, PyVal.str "T1098".toList),
     ("technique".toList, PyVal.str "Account Manipulation".toList),
     ("name".toList, PyVal.str "User added to group".toList),
     ("platform".toList, PyVal.list [PyVal.str "Windows".toList]),
     ("event_id".toList, PyVal.str "4728".toList),
     ("log_source".toList, PyVal.str "Microsoft-Windows-Security-Auditing".toList),
     ("filter_in".toList, PyVal.list [])]]

/-- C1 counterexample: at the empty input array the claim fails — the loop
produces zero rows, the intermediate JSON is written, and then the
column-less DataFrame raises `KeyError` at `df["tactic"]`, so no HTML
table (of zero rows or otherwise) is ever rendered or written. -/
theorem c1_counterexample :
    parsed_output [] = some [] ∧
      dfSteps [] = Except.error PyError.keyError ∧
      (runProgram (fun _ => some (PyVal.list [])) (Option.some []) Option.none).written
        = [(output_json, jsonDump [])] ∧
      (runProgram (fun _ => some (PyVal.list [])) (Option.some []) Option.none).error
        = some PyError.keyError :=
  ⟨rfl, rfl, rfl, rfl⟩

/-- C1 (amended): for every nonempty input JSON array of technique objects
on which the pipeline completes, the number of rows produced — the entries
of `parsed_output`, and hence the rows of the DataFrame rendered into the
HTML table — equals the number of technique objects in the input array.
(The empty array aborts the DataFrame stage with `KeyError` before any
table is rendered.) -/
theorem c1_row_count (ts : List PyVal) (rows : List Row) (ds : List DisplayRow)
    (hts : ts ≠ []) (hp : parsed_output ts = some rows)
    (hr : dfSteps rows = Except.ok ds) :
    rows.length = ts.length ∧ ds.length = ts.length ∧
      (tableRows ds).length = ts.length := by
  unfold parsed_output at hp
  have h1 := mapOpt_length hp
  unfold dfSteps at hr
  by_cases hre : rows.isEmpty = true
  · rw [if_pos hre] at hr
    cases hr
  · rw [if_neg hre] at hr
    cases hmap : mapOpt renderRow rows with
    | none => rw [hmap] at hr; cases hr
    | some ds' =>
        rw [hmap] at hr
        cases hr
        have h2 := mapOpt_length hmap
        exact ⟨h1, h2.trans h1, by simpa [tableRows] using h2.trans h1⟩

/-- Witness: the row-count theorem applied to a concrete one-technique input. -/
theorem c1_row_count_witness :
    (tableRows ((dfSteps ((parsed_output tsC1).getD [])).toOption.getD [])).length
      = tsC1.length :=
  (c1_row_count tsC1 _ _ (by simp [tsC1]) (by rfl) (by rfl)).2.2

/-- C2: every non-Query cell is HTML-escaped before being placed in the
table: the cell rendered for a free-text value `s` contains
`html.escape(str(s))`, and the escaped text contains no raw `<`, `>` or
`"` and every `&` in it begins an entity, so no `<`, `>`, `&` or `"` of
the original text survives unescaped. -/
theorem c2_cells_html_escaped (s : List Char) :
    List.IsInfix (htmlEscape s) (add_tooltip (PyVal.str s)) ∧
    '<' ∉ htmlEscape s ∧ '>' ∉ htmlEscape s ∧ '"' ∉ htmlEscape s ∧
    entityClean (htmlEscape s) = true := by
  refine ⟨?_, (htmlEscape_no_raw s).1, (htmlEscape_no_raw s).2.1,
    (htmlEscape_no_raw s).2.2, entityClean_htmlEscape s⟩
  by_cases h : s = []
  · subst h
    show List.IsInfix (htmlEscape []) (add_tooltip (PyVal.str []))
    exact ⟨[], [], rfl⟩
  · have ht : pyTruthy (PyVal.str s) = true := by simp [pyTruthy, h]
    rw [add_tooltip, ht]
    refine ⟨spanOpen, spanMid ++ htmlEscape (pyStr (PyVal.str s)) ++ spanClose, ?_⟩
    simp [pyStr_str, List.append_assoc]

/-- C3 counterexample: a single tactic label that itself contains a comma
(`"a, b"`) joins to the string `"a, b"`, which splits into the two labels
`"a"` and `"b"`, not back into the original one-element list. -/
theorem c3_counterexample :
    joinIfList (PyVal.list [PyVal.str "a, b".toList])
        = some (PyVal.str "a, b".toList) ∧
      splitSep "a, b".toList ≠ ["a, b".toList] := by
  exact ⟨rfl, by decide⟩

/-- C3 (amended): for every nonempty list of labels none of which contains
a comma, the `", "`-joined tactic/platform display string splits back into
exactly the original list of labels. -/
theorem c3_join_split_round_trip (l : List (List Char)) (h1 : l ≠ [])
    (h2 : ∀ s ∈ l, ',' ∉ s) :
    joinIfList (PyVal.list (l.map PyVal.str))
        = some (PyVal.str (joinWith ", ".toList l)) ∧
      splitSep (joinWith ", ".toList l) = l := by
  constructor
  · simp only [joinIfList]
    rw [mapOpt_asString_map_str]
    rfl
  · have hsep : (", ".toList : List Char) = [',', ' '] := rfl
    rw [hsep]
    exact splitSep_joinWith h1 h2

/-- Witness: the round trip at the two-label list `["ab", "cd"]`. -/
theorem c3_join_split_round_trip_witness :
    joinIfList (PyVal.list ([['a', 'b'], ['c', 'd']].map PyVal.str))
        = some (PyVal.str (joinWith ", ".toList [['a', 'b'], ['c', 'd']])) ∧
      splitSep (joinWith ", ".toList [['a', 'b'], ['c', 'd']]) = [['a', 'b'], ['c', 'd']] :=
  c3_join_split_round_trip [['a', 'b'], ['c', 'd']] (by decide) (by decide)

/-- C4: on a list-valued filter specification, `format_filter_data` renders
each dictionary entry as its `key: value` pairs joined with `", "`, renders
any non-dictionary entry with `str`, and joins the per-entry strings with
`"; "` (the empty list yielding the empty string). -/
theorem c4_format_filter_data (entries : List PyVal) :
    format_filter_data (PyVal.list entries) =
      joinWith "; ".toList (entries.map fun entry =>
        match entry with
        | PyVal.dict kvs =>
            joinWith ", ".toList (kvs.map fun kv => kv.1 ++ ": ".toList ++ pyStr kv.2)
        | _ => pyStr entry) := by
  cases entries with
  | nil => rfl
  | cons e es => rfl

/-- C5: a row whose filter specification is the empty list gets the
disabled `No Filter` button as its Query cell, not an active button. -/
theorem c5_empty_filter_disabled (r : Row) (h : r.table_filter = PyVal.list []) :
    queryCell r = noFilterButton := by
  rw [queryCell, h]
  rfl

/-- Witness: the empty-filter theorem at a concrete row. -/
theorem c5_empty_filter_disabled_witness :
    queryCell
      { tactic := PyVal.str "persistence".toList,
        technique_id := PyVal.str "T1098".toList,
        technique_name := PyVal.str "Account Manipulation".toList,
        event_description := PyVal.str "User added to group".toList,
        platform := PyVal.str "Windows".toList,
        table_or_event_id := PyVal.str "4728".toList,
        log_source := PyVal.str "Security".toList,
        table_filter := PyVal.list [] } = noFilterButton :=
  c5_empty_filter_disabled _ rfl

/-- C6: the `-p`/`--Platform` command-line argument is parsed but never
consumed: for every parser behaviour, every input file and every pair of
values of the Platform argument (absence included), the run writes
identical files and ends in the identical state. -/
theorem c6_platform_arg_unused (jsonParse : List Char → Option PyVal)
    (inputFile : Option (List Char)) (p1 p2 : Option (List Char)) :
    runProgram jsonParse inputFile p1 = runProgram jsonParse inputFile p2 := rfl

/-- C7: when the input JSON file is missing or malformed the run dies with
the corresponding unhandled exception (`FileNotFoundError` or
`json.JSONDecodeError`) and writes neither the intermediate JSON file nor
the HTML file. -/
theorem c7_bad_input_no_writes (jsonParse : List Char → Option PyVal)
    (inputFile platformArg : Option (List Char))
    (h : inputFile = Option.none ∨
      ∃ s, inputFile = Option.some s ∧ jsonParse s = Option.none) :
    (runProgram jsonParse inputFile platformArg).written = [] ∧
      ((runProgram jsonParse inputFile platformArg).error
          = some PyError.fileNotFoundError ∨
        (runProgram jsonParse inputFile platformArg).error
          = some PyError.jsonDecodeError) := by
  rcases h with h | ⟨s, hs, hp⟩
  · subst h
    exact ⟨rfl, Or.inl rfl⟩
  · subst hs
    simp [runProgram, hp]

/-- Witness: a present but malformed input file under a parser that
rejects it. -/
theorem c7_bad_input_no_writes_witness :
    (runProgram (fun _ => Option.none) (Option.some ['x']) Option.none).written = [] ∧
      ((runProgram (fun _ => Option.none) (Option.some ['x']) Option.none).error
          = some PyError.fileNotFoundError ∨
        (runProgram (fun _ => Option.none) (Option.some ['x']) Option.none).error
          = some PyError.jsonDecodeError) :=
  c7_bad_input_no_writes (fun _ => Option.none) (Option.some ['x']) Option.none
    (Or.inr ⟨['x'], rfl, rfl⟩)

/-- C8: `create_copy_button` yields the disabled `No Filter` button exactly
when the formatted filter string is empty, equals `nan` case-insensitively,
or is whitespace-only; in every other case it yields the active
`Copy KQL` button. -/
theorem c8_button_condition (t : PyVal) (f : List Char) :
    (create_copy_button t f = noFilterButton ↔
      (f = [] ∨ pyLower f = "nan".toList ∨ pyStrip f = [])) ∧
    (¬(f = [] ∨ pyLower f = "nan".toList ∨ pyStrip f = []) →
      create_copy_button t f =
        activePre ++ replaceQuotes (pyStr t) ++ activeMid
          ++ replaceQuotes f ++ activeSuf) := by
  by_cases h : f = [] ∨ pyLower f = "nan".toList ∨ pyStrip f = []
  · refine ⟨⟨fun _ => h, fun _ => ?_⟩, fun hn => absurd h hn⟩
    unfold create_copy_button
    rw [if_pos h]
  · have hact : create_copy_button t f =
        activePre ++ replaceQuotes (pyStr t) ++ activeMid
          ++ replaceQuotes f ++ activeSuf := by
      unfold create_copy_button
      rw [if_neg h]
    refine ⟨⟨fun he => ?_, fun hc => absurd hc h⟩, fun _ => hact⟩
    rw [hact] at he
    exact absurd he.symm (noFilter_ne_active (replaceQuotes (pyStr t)) (replaceQuotes f))

/-- Witness: the active branch of the button-state theorem at a concrete
table id and filter string. -/
theorem c8_button_condition_witness :
    create_copy_button (PyVal.str ['T']) ['x'] =
      activePre ++ replaceQuotes (pyStr (PyVal.str ['T'])) ++ activeMid
        ++ replaceQuotes ['x'] ++ activeSuf :=
  (c8_button_condition (PyVal.str ['T']) ['x']).2 (by decide)

/-- C9: in every active `Copy KQL` button, the table/event id and the
filter string spliced into the `onclick` attribute are the inputs with
every single quote replaced by a backslash-escaped single quote, so the
generated single-quoted JavaScript string literals contain no single quote
that is not immediately preceded by a backslash. -/
theorem c9_onclick_quotes_escaped (t : PyVal) (f : List Char)
    (h : ¬(f = [] ∨ pyLower f = "nan".toList ∨ pyStrip f = [])) :
    create_copy_button t f =
        activePre ++ replaceQuotes (pyStr t) ++ activeMid
          ++ replaceQuotes f ++ activeSuf ∧
      noBareQuote (replaceQuotes (pyStr t)) = true ∧
      noBareQuote (replaceQuotes f) = true :=
  ⟨by unfold create_copy_button; rw [if_neg h],
   noBareQuote_replaceQuotes (pyStr t), noBareQuote_replaceQuotes f⟩

/-- Witness: quote escaping at an id and a filter that both contain a
single quote. -/
theorem c9_onclick_quotes_escaped_witness :
    create_copy_button (PyVal.str ['a', '\'', 'b']) ['x', '\'', 'y'] =
        activePre ++ replaceQuotes (pyStr (PyVal.str ['a', '\'', 'b'])) ++ activeMid
          ++ replaceQuotes ['x', '\'', 'y'] ++ activeSuf ∧
      noBareQuote (replaceQuotes (pyStr (PyVal.str ['a', '\'', 'b']))) = true ∧
      noBareQuote (replaceQuotes ['x', '\'', 'y']) = true :=
  c9_onclick_quotes_escaped (PyVal.str ['a', '\'', 'b']) ['x', '\'', 'y'] (by decide)

/-- C10: a falsy non-Query cell (empty string, `None`, `0`, empty list)
renders as the empty string with no span wrapper, while a truthy cell
renders as a span whose `title` attribute equals its escaped content. -/
theorem c10_tooltip_shape :
    (pyTruthy (PyVal.str []) = false ∧ pyTruthy PyVal.none = false ∧
      pyTruthy (PyVal.int 0) = false ∧ pyTruthy (PyVal.list []) = false) ∧
    (∀ v : PyVal, pyTruthy v = false → add_tooltip v = []) ∧
    (∀ v : PyVal, pyTruthy v = true →
      add_tooltip v = mkSpan (htmlEscape (pyStr v)) (htmlEscape (pyStr v))) := by
  refine ⟨⟨rfl, rfl, by decide, rfl⟩, fun v h => ?_, fun v h => ?_⟩
  · simp [add_tooltip, h]
  · simp [add_tooltip, mkSpan, h]

/-- Witness: the tooltip-shape theorem at `None` and at a one-character
string. -/
theorem c10_tooltip_shape_witness :
    add_tooltip PyVal.none = [] ∧
      add_tooltip (PyVal.str ['a'])
        = mkSpan (htmlEscape (pyStr (PyVal.str ['a']))) (htmlEscape (pyStr (PyVal.str ['a']))) :=
  ⟨c10_tooltip_shape.2.1 PyVal.none rfl, c10_tooltip_shape.2.2 (PyVal.str ['a']) rfl⟩
